import Mathlib

/-!
Verification of the PlotJuggler ingestion plugins (CSV parsing engine and
WebSocket streaming client) against their natural-language specification.

The development shallowly embeds the C++ sources:
  - plotjuggler_plugins/DataLoadCSV/csv_parser.cpp
  - plotjuggler_plugins/DataStreamWebsocketBridge/websocket_client.cpp
  - plotjuggler_base/include/PlotJuggler/stringseries.h

Strings are represented as lists of characters; C++ double values that the
claims depend on only through ordering and equality are represented as
rationals; machine integers are represented as Nat (values read from byte
buffers are bounded by construction).  Helpers declared in
timestamp_parsing.h, a file that is not part of the provided sources, are
either modelled from the spec (Trim, toDouble) or passed as parameters
(the timestamp oracles), so that the theorems hold for every behaviour of
the missing code.
-/

namespace PlotJuggler

/-- Character-list representation of a C++ std::string. -/
abbrev Str := List Char

/-- Whitespace as used by std::isspace for field trimming. -/
def isSpaceChar (c : Char) : Bool :=
  c = ' ' ∨ c = '\t' ∨ c = '\r' ∨ c = '\n'

/-- Modelled from the spec: Trim is declared in timestamp_parsing.h, which is
not among the provided sources.  Spec 4.2: every emitted field is
whitespace-trimmed on both ends. -/
def Trim (s : Str) : Str :=
  ((s.dropWhile isSpaceChar).reverse.dropWhile isSpaceChar).reverse

/-- Decimal digit character for d < 10. -/
def digitChar (d : Nat) : Char := Char.ofNat (48 + d)

/-- Fuel-driven digit expansion; the fuel n + 1 is always sufficient since
n / 10 strictly decreases. -/
def natToStrAux : Nat → Nat → Str
  | 0, _ => []
  | fuel + 1, n =>
      if n < 10 then [digitChar n]
      else natToStrAux fuel (n / 10) ++ [digitChar (n % 10)]

/-- Decimal rendering of a natural number (std::to_string on nonnegative int). -/
def natToStr (n : Nat) : Str := natToStrAux (n + 1) n

/-- Value of a decimal digit character, none for other characters. -/
def digitVal (c : Char) : Option Nat :=
  if 48 ≤ c.toNat ∧ c.toNat ≤ 57 then some (c.toNat - 48) else none

/-- Value of a hexadecimal digit character. -/
def hexVal (c : Char) : Option Nat :=
  if 48 ≤ c.toNat ∧ c.toNat ≤ 57 then some (c.toNat - 48)
  else if 97 ≤ c.toNat ∧ c.toNat ≤ 102 then some (c.toNat - 87)
  else if 65 ≤ c.toNat ∧ c.toNat ≤ 70 then some (c.toNat - 55)
  else none

/-- Consume a maximal run of decimal digits: accumulated value, number of
digits consumed, and the rest of the input. -/
def takeDigits : Str → Nat → Nat → Nat × Nat × Str
  | [], acc, n => (acc, n, [])
  | c :: rest, acc, n =>
      match digitVal c with
      | some d => takeDigits rest (acc * 10 + d) (n + 1)
      | none => (acc, n, c :: rest)

/-- Consume a maximal run of hexadecimal digits. -/
def takeHexDigits : Str → Nat → Nat → Nat × Nat × Str
  | [], acc, n => (acc, n, [])
  | c :: rest, acc, n =>
      match hexVal c with
      | some d => takeHexDigits rest (acc * 16 + d) (n + 1)
      | none => (acc, n, c :: rest)

/-- Modelled from the spec: toDouble is declared in timestamp_parsing.h, which
is not among the provided sources.  Spec 4.4 rule 4: accept decimal floats,
scientific notation, integer literals and hexadecimal literals; the value is
returned exactly as a rational. -/
def toDouble (s : Str) : Option ℚ :=
  let (sign, r) : ℚ × Str :=
    match s with
    | '-' :: t => (-1, t)
    | '+' :: t => (1, t)
    | _ => (1, s)
  match r with
  | '0' :: 'x' :: t =>
      let (v, n, rest) := takeHexDigits t 0 0
      if n > 0 ∧ rest = [] then some (sign * v) else none
  | '0' :: 'X' :: t =>
      let (v, n, rest) := takeHexDigits t 0 0
      if n > 0 ∧ rest = [] then some (sign * v) else none
  | _ =>
      let (ip, nInt, r1) := takeDigits r 0 0
      let (fp, nFrac, r2) :=
        match r1 with
        | '.' :: t => takeDigits t 0 0
        | _ => (0, 0, r1)
      if nInt = 0 ∧ nFrac = 0 then none
      else
        let base : ℚ := sign * ((ip : ℚ) + (fp : ℚ) / (10 : ℚ) ^ nFrac)
        match r2 with
        | [] => some base
        | 'e' :: t =>
            let (esign, t2) : Int × Str :=
              match t with
              | '-' :: u => (-1, u)
              | '+' :: u => (1, u)
              | _ => (1, t)
            let (ev, en, rest) := takeDigits t2 0 0
            if en > 0 ∧ rest = [] then some (base * (10 : ℚ) ^ (esign * ev)) else none
        | 'E' :: t =>
            let (esign, t2) : Int × Str :=
              match t with
              | '-' :: u => (-1, u)
              | '+' :: u => (1, u)
              | _ => (1, t)
            let (ev, en, rest) := takeDigits t2 0 0
            if en > 0 ∧ rest = [] then some (base * (10 : ℚ) ^ (esign * ev)) else none
        | _ => none

/-!  SplitLine (csv_parser.cpp, lines 109-177).  The C++ for-loop over the
character index pos becomes structural recursion over the remaining
characters, carrying pos so that the substring extractions can be expressed
on the whole line exactly as in the source. -/

/-- Loop state of SplitLine: the local variables of the C++ function. -/
structure SplitState where
  inside_quotes : Bool
  quoted_word : Bool
  start_pos : Nat
  quote_start : Nat
  quote_end : Nat
  parts : List Str
deriving Repr, DecidableEq

/-- line.substr(a, b - a): the slice [a, b) of the line. -/
def substrFromTo (line : Str) (a b : Nat) : Str := (line.drop a).take (b - a)

/-- line.substr(quote_start, quote_end - quote_start + 1) with the C++ count
computed in int: a negative count converts to a huge size_t, which substr
clamps to the end of the string. -/
def quotedSubstr (line : Str) (qs qe : Nat) : Str :=
  if qs ≤ qe + 1 then (line.drop qs).take (qe + 1 - qs) else line.drop qs

/-- One iteration of the SplitLine loop body for character c at index pos;
is_last tells whether pos + 1 == line.size(). -/
def splitStep (line : Str) (separator : Char) (c : Char) (pos : Nat)
    (is_last : Bool) (st : SplitState) : SplitState :=
  let st1 :=
    if c = '"' then
      if st.inside_quotes then
        { st with quoted_word := true, quote_end := pos - 1, inside_quotes := false }
      else
        { st with quote_start := pos + 1, inside_quotes := true }
    else st
  let sep_now : Bool := !st1.inside_quotes && c = separator
  let part_completed : Bool := sep_now || is_last
  let end_pos := if is_last then (if c = separator then pos else pos + 1) else pos
  let add_empty : Bool := is_last && c = separator
  let st2 :=
    if part_completed then
      let part :=
        if st1.quoted_word then quotedSubstr line st1.quote_start st1.quote_end
        else substrFromTo line st1.start_pos end_pos
      { st1 with
        parts := st1.parts ++ [Trim part]
        start_pos := pos + 1
        quoted_word := false
        inside_quotes := false }
    else st1
  if add_empty then { st2 with parts := st2.parts ++ [[]] } else st2

/-- The SplitLine loop: rest is the suffix of line starting at index pos. -/
def splitLoop (line : Str) (separator : Char) :
    List Char → Nat → SplitState → List Str
  | [], _, st => st.parts
  | c :: rest, pos, st =>
      splitLoop line separator rest (pos + 1)
        (splitStep line separator c pos rest.isEmpty st)

/-- SplitLine (csv_parser.cpp, lines 109-177). -/
def SplitLine (line : Str) (separator : Char) : List Str :=
  splitLoop line separator line 0 ⟨false, false, 0, 0, 0, []⟩

/-!  Spec-side line splitting, transcribed from spec section 4.2: a double
quote toggles the inside-quotes flag; a separator outside quotes completes
the field; end of line completes the last field, a trailing separator adding
an extra empty field; a field any part of which was quoted emits the
substring between an opening quote and the last closing quote seen in the
field; every field is trimmed.  The firstQuote flag selects which opening
quote delimits the emitted value: true keeps the FIRST opening quote of the
field (the reading of claim C4), false keeps the LAST opening quote. -/

/-- Loop state of the spec-side splitter; has_open records whether an opening
quote was already seen in the current field. -/
structure SpecSplitState where
  inside_quotes : Bool
  quoted_word : Bool
  has_open : Bool
  start_pos : Nat
  quote_start : Nat
  quote_end : Nat
  parts : List Str
deriving Repr, DecidableEq

/-- One step of the spec-side splitter. -/
def specSplitStep (firstQuote : Bool) (line : Str) (separator : Char) (c : Char)
    (pos : Nat) (is_last : Bool) (st : SpecSplitState) : SpecSplitState :=
  let st1 :=
    if c = '"' then
      if st.inside_quotes then
        { st with quoted_word := true, quote_end := pos - 1, inside_quotes := false }
      else
        { st with
          quote_start := if firstQuote && st.has_open then st.quote_start else pos + 1
          has_open := true
          inside_quotes := true }
    else st
  let sep_now : Bool := !st1.inside_quotes && c = separator
  let part_completed : Bool := sep_now || is_last
  let end_pos := if is_last then (if c = separator then pos else pos + 1) else pos
  let add_empty : Bool := is_last && c = separator
  let st2 :=
    if part_completed then
      let part :=
        if st1.quoted_word then quotedSubstr line st1.quote_start st1.quote_end
        else substrFromTo line st1.start_pos end_pos
      { st1 with
        parts := st1.parts ++ [Trim part]
        start_pos := pos + 1
        quoted_word := false
        has_open := false
        inside_quotes := false }
    else st1
  if add_empty then { st2 with parts := st2.parts ++ [[]] } else st2

/-- The spec-side splitting loop. -/
def specSplitLoop (firstQuote : Bool) (line : Str) (separator : Char) :
    List Char → Nat → SpecSplitState → List Str
  | [], _, st => st.parts
  | c :: rest, pos, st =>
      specSplitLoop firstQuote line separator rest (pos + 1)
        (specSplitStep firstQuote line separator c pos rest.isEmpty st)

/-- Line splitting as the spec words it (section 4.2); see specSplitStep. -/
def splitLineSpec (firstQuote : Bool) (line : Str) (separator : Char) : List Str :=
  specSplitLoop firstQuote line separator line 0 ⟨false, false, false, 0, 0, 0, []⟩

/-- Forget the has_open bookkeeping of a spec splitter state. -/
def eraseSS (s : SpecSplitState) : SplitState :=
  ⟨s.inside_quotes, s.quoted_word, s.start_pos, s.quote_start, s.quote_end, s.parts⟩

/-!  DetectDelimiter (csv_parser.cpp, lines 17-103). -/

/-- countOutsideQuotes lambda: occurrences of delim outside double-quoted
spans; the quoting flag toggles on every double quote. -/
def countOutsideQuotes (line : Str) (delim : Char) : Nat :=
  (line.foldl
    (fun (acc : Nat × Bool) c =>
      if c = '"' then (acc.1, !acc.2)
      else if !acc.2 && c = delim then (acc.1 + 1, acc.2)
      else acc)
    (0, false)).1

/-- Space counting block of DetectDelimiter: a run of consecutive spaces
outside quotes counts once. -/
def countSpaceRuns (line : Str) : Nat :=
  (line.foldl
    (fun (acc : Nat × Bool × Bool) c =>
      if c = '"' then (acc.1, !acc.2.1, false)
      else if !acc.2.1 && c = ' ' then
        (if acc.2.2 then acc.1 else acc.1 + 1, acc.2.1, true)
      else (acc.1, acc.2.1, false))
    (0, false, false)).1

/-- The Candidate struct of DetectDelimiter. -/
structure DelimCandidate where
  delim : Char
  count : Nat
  priority : Nat
deriving Repr, DecidableEq

/-- The candidate array of DetectDelimiter for a given line. -/
def delimCandidates (line : Str) : List DelimCandidate :=
  [ ⟨'\t', countOutsideQuotes line '\t', 4⟩,
    ⟨';', countOutsideQuotes line ';', 3⟩,
    ⟨',', countOutsideQuotes line ',', 2⟩,
    ⟨' ', countSpaceRuns line, 1⟩ ]

/-- One iteration of the selection loop of DetectDelimiter: best is replaced
by a qualifying candidate with a strictly larger count, or an equal count
and larger priority. -/
def pickBestStep (best : Option DelimCandidate) (c : DelimCandidate) :
    Option DelimCandidate :=
  let threshold := if c.delim = ' ' then 2 else 1
  if c.count ≥ threshold then
    match best with
    | none => some c
    | some b =>
        if c.count > b.count then some c
        else if c.count = b.count ∧ c.priority > b.priority then some c
        else some b
  else best

/-- The selection loop of DetectDelimiter, with best starting as null. -/
def pickBest (cs : List DelimCandidate) : Option DelimCandidate :=
  cs.foldl pickBestStep none

/-- DetectDelimiter (csv_parser.cpp, lines 17-103). -/
def DetectDelimiter (line : Str) : Char :=
  match pickBest (delimCandidates line) with
  | some b => b.delim
  | none => ','

/-- Spec section 4.1: a candidate qualifies when its count meets its
threshold, 1 for comma, semicolon and tab, 2 for space. -/
def qualifiesSpec (c : DelimCandidate) : Bool :=
  c.count ≥ (if c.delim = ' ' then 2 else 1)

/-- One step of the lexicographic maximum: the candidate replaces the
current best when its count is larger, or equal with a larger priority. -/
def maxStep (best : Option DelimCandidate) (c : DelimCandidate) :
    Option DelimCandidate :=
  match best with
  | none => some c
  | some b =>
      if c.count > b.count ∨ (c.count = b.count ∧ c.priority > b.priority) then some c
      else some b

/-- Generic maximum of a candidate list under the lexicographic order
(count, then tie-break priority); the first maximal element wins. -/
def maxByCountPriority (cs : List DelimCandidate) : Option DelimCandidate :=
  cs.foldl maxStep none

/-- Delimiter detection as the spec words it (section 4.1): among the
candidates meeting their thresholds pick the one with the highest count,
breaking ties by priority; if no candidate qualifies, default to comma. -/
def DetectDelimiterSpec (line : Str) : Char :=
  match maxByCountPriority ((delimCandidates line).filter qualifiesSpec) with
  | some b => b.delim
  | none => ','

/-!  ParseHeaderLine (csv_parser.cpp, lines 183-252). -/

/-- Structural map with the element index, mirroring an indexed C++ loop. -/
def mapWithIdx (f : Nat → α → β) : Nat → List α → List β
  | _, [] => []
  | k, a :: t => f k a :: mapWithIdx f (k + 1) t

/-- The generated name "_Column_i". -/
def columnName (i : Nat) : Str := "_Column_".data ++ natToStr i

/-- Steps 1-3 of header normalization: split, the all-numbers replacement,
and the empty-field replacement (csv_parser.cpp, lines 185-220). -/
def headerNamesRaw (header : Str) (delimiter : Char) : List Str :=
  let parts := SplitLine header delimiter
  let is_number_count := (parts.filter (fun f => (toDouble (Trim f)).isSome)).length
  if is_number_count = parts.length then
    (List.range parts.length).map columnName
  else
    mapWithIdx (fun i p => let name := Trim p; if name = [] then columnName i else name) 0 parts

/-- Index suffix "_ii", zero-padded to two digits (csv_parser.cpp, 242-245). -/
def padIndexSuffix (i : Nat) : Str :=
  '_' :: (if i < 10 then '0' :: natToStr i else natToStr i)

/-- Indices of the occurrences of names[i] at i or later (the repeated vector
of the C++ dedup loop, built from the current, possibly already mutated,
name vector). -/
def collectRepeated (names : List Str) (i : Nat) : List Nat :=
  i :: (List.range names.length).filter (fun j => i < j && names.getD j [] = names.getD i [])

/-- One iteration of the outer dedup loop: if names[i] occurs more than once,
every occurrence gets its index suffix appended. -/
def dedupPass (names : List Str) (i : Nat) : List Str :=
  let repeated := collectRepeated names i
  if repeated.length > 1 then
    mapWithIdx (fun j s => if j ∈ repeated then s ++ padIndexSuffix j else s) 0 names
  else names

/-- The duplicate-name handling loop of ParseHeaderLine (lines 222-249). -/
def dedupNames (names : List Str) : List Str :=
  (List.range names.length).foldl dedupPass names

/-- ParseHeaderLine (csv_parser.cpp, lines 183-252).  The std::set size
comparison detects whether any name is duplicated. -/
def ParseHeaderLine (header : Str) (delimiter : Char) : List Str :=
  let column_names := headerNamesRaw header delimiter
  if column_names.Nodup then column_names else dedupNames column_names

/-!  ParseCsvData (csv_parser.cpp, lines 299-573).  The istream input is the
list of its getline lines.  The helpers of timestamp_parsing.h that the row
loop calls (DetectColumnType, ParseWithType, ParseCombinedDateTime,
FormatParseTimestamp) are not among the provided sources; they are passed as
an oracle parameter so the theorems hold for every behaviour of that code.
Timestamps are rationals: the claims depend on them only through ordering. -/

/-- ColumnType (timestamp_parsing.h, used by csv_parser). -/
inductive ColumnType
  | UNDEFINED
  | NUMBER
  | STRING
  | DATE_ONLY
  | TIME_ONLY
  | DATETIME
deriving Repr, DecidableEq

/-- ColumnTypeInfo: detected kind, format string, fractional-seconds flag. -/
structure ColumnTypeInfo where
  type : ColumnType := .UNDEFINED
  format : Str := []
  has_fractional : Bool := false
deriving Repr, DecidableEq

/-- CombinedColumnPair (csv_parser.h, lines 60-65). -/
structure CombinedColumnPair where
  date_column_index : Int
  time_column_index : Int
  virtual_name : Str
deriving Repr, DecidableEq

/-- CsvParseConfig (csv_parser.h, lines 67-77).  skip_rows is nonnegative in
all uses, so it is a Nat. -/
structure CsvParseConfig where
  delimiter : Char := ','
  time_column_index : Int := -1
  custom_time_format : Str := []
  skip_rows : Nat := 0
  total_lines : Int := 0
  combined_columns : List CombinedColumnPair := []
  combined_column_index : Int := -1
deriving Repr, DecidableEq

/-- CsvParseWarning::Type (csv_parser.h, lines 89-95). -/
inductive WarningType
  | WRONG_COLUMN_COUNT
  | INVALID_TIMESTAMP
  | NON_MONOTONIC_TIME
  | DUPLICATE_COLUMN_NAMES
deriving Repr, DecidableEq

/-- CsvParseWarning (csv_parser.h, lines 87-99). -/
structure CsvParseWarning where
  type : WarningType
  line_number : Int
  detail : Str
deriving Repr, DecidableEq

/-- CsvColumnData (csv_parser.h, lines 79-85). -/
structure CsvColumnData where
  name : Str := []
  numeric_points : List (ℚ × ℚ) := []
  string_points : List (ℚ × Str) := []
  detected_type : ColumnTypeInfo := {}
deriving Repr, DecidableEq

/-- CsvParseResult (csv_parser.h, lines 101-111).  The std::set of combined
component indices is a list used only through membership. -/
structure CsvParseResult where
  success : Bool := false
  columns : List CsvColumnData := []
  column_names : List Str := []
  warnings : List CsvParseWarning := []
  time_is_non_monotonic : Bool := false
  lines_processed : Nat := 0
  lines_skipped : Nat := 0
  combined_component_indices : List Int := []
deriving Repr, DecidableEq

/-- The timestamp_parsing.h functions used by the row loop, as parameters:
that file is not among the provided sources. -/
structure TimeOracle where
  DetectColumnType : Str → ColumnTypeInfo
  ParseWithType : Str → ColumnTypeInfo → Option ℚ
  ParseCombinedDateTime : Str → Str → ColumnTypeInfo → ColumnTypeInfo → Option ℚ
  FormatParseTimestamp : Str → Str → Option ℚ

/-- Strip a trailing carriage return, as done on every getline result. -/
def stripCR (l : Str) : Str :=
  if l.getLast? = some '\r' then l.dropLast else l

/-- Mutable state of the row loop: the result being built plus the local
variables column_types, prev_time, linenumber and samplecount.  prev_time
none models std::numeric_limits lowest, which no timestamp compares below. -/
structure RowLoopState where
  result : CsvParseResult
  column_types : List ColumnTypeInfo
  prev_time : Option ℚ
  linenumber : Int
  samplecount : Nat
deriving DecidableEq

/-- First-row type detection (csv_parser.cpp, lines 421-427): each still
undefined column with a non-empty cell gets its type detected. -/
def detectRowTypes (oracle : TimeOracle) (parts : List Str)
    (types : List ColumnTypeInfo) : List ColumnTypeInfo :=
  mapWithIdx
    (fun i t =>
      if t.type = .UNDEFINED ∧ parts.getD i [] ≠ [] then
        oracle.DetectColumnType (parts.getD i [])
      else t)
    0 types

/-- Result of the per-row timestamp resolution: an invalid timestamp skips
the row with an INVALID_TIMESTAMP warning carrying the detail text; a valid
result carries the chosen value and the timestamp_valid flag (false only on
the row-index fallback). -/
inductive TsOutcome
  | invalid (detail : Str)
  | valid (timestamp : ℚ) (timestamp_valid : Bool)
deriving Repr, DecidableEq

/-- Timestamp resolution for one row (csv_parser.cpp, lines 429-493). -/
def resolveTimestamp (config : CsvParseConfig) (oracle : TimeOracle)
    (parts : List Str) (types : List ColumnTypeInfo) (samplecount : Nat)
    (num_columns : Nat) : TsOutcome :=
  if 0 ≤ config.combined_column_index ∧
      config.combined_column_index < (config.combined_columns.length : Int) then
    let combo := config.combined_columns.getD config.combined_column_index.toNat
      ⟨0, 0, []⟩
    let date_val := Trim (parts.getD combo.date_column_index.toNat [])
    let time_val := Trim (parts.getD combo.time_column_index.toNat [])
    match oracle.ParseCombinedDateTime date_val time_val
        (types.getD combo.date_column_index.toNat {})
        (types.getD combo.time_column_index.toNat {}) with
    | some ts => .valid ts true
    | none =>
        .invalid ("Invalid combined timestamp: \"".data ++ date_val ++ "\" + \"".data
          ++ time_val ++ "\"".data)
  else if 0 ≤ config.time_column_index ∧
      config.time_column_index < (num_columns : Int) then
    let t_str := Trim (parts.getD config.time_column_index.toNat [])
    let parsed :=
      if config.custom_time_format ≠ [] then
        oracle.FormatParseTimestamp t_str config.custom_time_format
      else
        let time_type := types.getD config.time_column_index.toNat {}
        if time_type.type ≠ .STRING then oracle.ParseWithType t_str time_type
        else none
    match parsed with
    | some ts => .valid ts true
    | none => .invalid ("Invalid timestamp: \"".data ++ t_str ++ "\"".data)
  else
    .valid (samplecount : ℚ) false

/-- Value dispatch for one row (csv_parser.cpp, lines 511-542): each column
not marked as a combined component appends a numeric or string point. -/
def appendRowValues (result : CsvParseResult) (parts : List Str)
    (types : List ColumnTypeInfo) (oracle : TimeOracle) (timestamp : ℚ) :
    List CsvColumnData :=
  mapWithIdx
    (fun i col =>
      if (i : Int) ∈ result.combined_component_indices then col
      else
        let str := parts.getD i []
        let col_type := types.getD i {}
        if str = [] ∨ col_type.type = .UNDEFINED then col
        else if col_type.type ≠ .STRING then
          match oracle.ParseWithType str col_type with
          | some val => { col with numeric_points := col.numeric_points ++ [(timestamp, val)] }
          | none => { col with string_points := col.string_points ++ [(timestamp, str)] }
        else { col with string_points := col.string_points ++ [(timestamp, str)] })
    0 result.columns

/-- Finalization after the loop (csv_parser.cpp, lines 557-565): store the
detected types, the processed-line count and the success flag. -/
def finishResult (st : RowLoopState) : CsvParseResult :=
  { st.result with
    columns := mapWithIdx
      (fun i col => { col with detected_type := st.column_types.getD i {} }) 0
      st.result.columns
    lines_processed := st.samplecount
    success := true }

/-- prev_time > timestamp with prev_time none standing for the lowest
double, which no timestamp compares below. -/
def isBackwards (prev : Option ℚ) (timestamp : ℚ) : Bool :=
  match prev with
  | some p => decide (p > timestamp)
  | none => false

/-- The row loop of ParseCsvData (csv_parser.cpp, lines 389-555), one line
per recursive step; a cancelling progress callback returns the partial
result with success still false. -/
def rowLoop (config : CsvParseConfig) (oracle : TimeOracle)
    (progress : Option (Int → Int → Bool)) (num_columns : Nat)
    (total_lines : Int) : List Str → RowLoopState → CsvParseResult
  | [], st => finishResult st
  | raw_line :: rest, st =>
      let linenumber := st.linenumber + 1
      let line := stripCR raw_line
      let parts := SplitLine line config.delimiter
      if parts = [] then
        rowLoop config oracle progress num_columns total_lines rest
          { st with linenumber := linenumber }
      else if parts.length ≠ num_columns then
        let warn : CsvParseWarning :=
          ⟨.WRONG_COLUMN_COUNT, linenumber,
            "Expected ".data ++ natToStr num_columns ++ " columns, got ".data
              ++ natToStr parts.length⟩
        rowLoop config oracle progress num_columns total_lines rest
          { st with
            linenumber := linenumber
            result := { st.result with
              warnings := st.result.warnings ++ [warn]
              lines_skipped := st.result.lines_skipped + 1 } }
      else
        let types := detectRowTypes oracle parts st.column_types
        match resolveTimestamp config oracle parts types st.samplecount num_columns with
        | .invalid detail =>
            let warn : CsvParseWarning := ⟨.INVALID_TIMESTAMP, linenumber, detail⟩
            rowLoop config oracle progress num_columns total_lines rest
              { st with
                linenumber := linenumber
                column_types := types
                result := { st.result with
                  warnings := st.result.warnings ++ [warn]
                  lines_skipped := st.result.lines_skipped + 1 } }
        | .valid timestamp timestamp_valid =>
            let nonmono : Bool :=
              timestamp_valid &&
                (isBackwards st.prev_time timestamp && !st.result.time_is_non_monotonic)
            let result1 :=
              if nonmono then
                { st.result with
                  time_is_non_monotonic := true
                  warnings := st.result.warnings ++
                    [⟨.NON_MONOTONIC_TIME, linenumber,
                      "Time is not monotonically increasing".data⟩] }
              else st.result
            let prev_time := if timestamp_valid then some timestamp else st.prev_time
            let result2 := { result1 with
              columns := appendRowValues result1 parts types oracle timestamp }
            let st2 : RowLoopState :=
              { result := result2
                column_types := types
                prev_time := prev_time
                linenumber := linenumber
                samplecount := st.samplecount + 1 }
            match progress with
            | some cb =>
                if linenumber % 100 = 0 ∧ cb linenumber total_lines = false then
                  st2.result
                else rowLoop config oracle progress num_columns total_lines rest st2
            | none => rowLoop config oracle progress num_columns total_lines rest st2

/-- ParseCsvData (csv_parser.cpp, lines 299-573) on the list of input lines.
The skip-rows loop, header processing including the duplicate-name warning
computed from the raw split parts, the combined-component bookkeeping and
the internal line counting for the progress callback precede the row loop. -/
def ParseCsvData (lines : List Str) (config : CsvParseConfig)
    (oracle : TimeOracle) (progress : Option (Int → Int → Bool)) :
    CsvParseResult :=
  if lines.length < config.skip_rows + 1 then {}
  else
    match lines.drop config.skip_rows with
    | [] => {}
    | header_raw :: data_lines =>
        let header_line := stripCR header_raw
        let column_names := ParseHeaderLine header_line config.delimiter
        let raw_parts := SplitLine header_line config.delimiter
        let warnings : List CsvParseWarning :=
          if raw_parts.Nodup then []
          else [⟨.DUPLICATE_COLUMN_NAMES, (config.skip_rows : Int) + 1,
            "Duplicate column names detected; suffixes added".data⟩]
        let num_columns := column_names.length
        let combined_component_indices : List Int :=
          if 0 ≤ config.combined_column_index ∧
              config.combined_column_index < (config.combined_columns.length : Int) then
            let combo := config.combined_columns.getD config.combined_column_index.toNat
              ⟨0, 0, []⟩
            [combo.date_column_index, combo.time_column_index]
          else []
        let result0 : CsvParseResult :=
          { column_names := column_names
            columns := column_names.map (fun n => { name := n })
            warnings := warnings
            combined_component_indices := combined_component_indices }
        let total_lines : Int :=
          if progress.isSome ∧ config.total_lines ≤ 0 then (data_lines.length : Int)
          else config.total_lines
        rowLoop config oracle progress num_columns total_lines data_lines
          { result := result0
            column_types := List.replicate num_columns {}
            prev_time := none
            linenumber := (config.skip_rows : Int) + 1
            samplecount := 0 }

/-!  StringSeries (plotjuggler_base/include/PlotJuggler/stringseries.h).
A StringRef is modelled as Option String: none models a null data pointer.
The x coordinates are rationals; the dictionary index stored in a point is
the position in index_to_string. -/

/-- The observable state of a StringSeries: the stored points and the
two-way string dictionary (string_to_index as an association list). -/
structure StringSeriesState where
  points : List (ℚ × Nat) := []
  index_to_string : List String := []
  string_to_index : List (String × Nat) := []
deriving Repr, DecidableEq

/-- internString (stringseries.h, lines 101-113): look the string up, or
append it with the next fresh index. -/
def internString (st : StringSeriesState) (s : String) : StringSeriesState × Nat :=
  match st.string_to_index.lookup s with
  | some idx => (st, idx)
  | none =>
      let new_index := st.index_to_string.length
      ({ st with
          index_to_string := st.index_to_string ++ [s]
          string_to_index := st.string_to_index ++ [(s, new_index)] },
        new_index)

/-- The pushBack overload taking {timestamp, StringRef} (stringseries.h,
lines 56-65): null data or zero size returns without touching anything;
otherwise the string is interned and the index stored at the timestamp. -/
def pushBackPair (st : StringSeriesState) (p : ℚ × Option String) : StringSeriesState :=
  match p.2 with
  | none => st
  | some s =>
      if s.length = 0 then st
      else
        let (st1, idx) := internString st s
        { st1 with points := st1.points ++ [(p.1, idx)] }

/-!  Binary frame decoder (websocket_client.cpp, lines 507-647 and 767-800).
Byte buffers are lists of Nat, each < 256 by construction of the values
read.  Topic names stay at the byte level (QString::fromUtf8 is a bijection
on the valid encodings the protocol uses, and the claims only compare names
for equality).  A delivered message records the call of
onRos2CdrMessage that reached a registered parser; the log-time stays in
integer nanoseconds, its conversion to seconds being a lossy double
multiplication at the parser boundary that no claim depends on. -/

/-- Little-endian value of a byte list. -/
def leValue : List Nat → Nat
  | [] => 0
  | b :: rest => b + 256 * leValue rest

/-- readLE (websocket_client.cpp, lines 507-519): read an n-byte
little-endian value, advancing the cursor; fails past the end. -/
def readLE (n : Nat) (bs : List Nat) : Option (Nat × List Nat) :=
  if n ≤ bs.length then some (leValue (bs.take n), bs.drop n) else none

/-- One message handed to a topic parser: topic name bytes, log time in
nanoseconds, message bytes. -/
structure Delivery where
  topic : List Nat
  ts_ns : Nat
  data : List Nat
deriving Repr, DecidableEq

/-- onRos2CdrMessage (websocket_client.cpp, lines 767-800): the message is
routed to the parser registered for the topic, and dropped when none is. -/
def onRos2CdrMessage (parsers : List (List Nat)) (topic : List Nat)
    (ts_ns : Nat) (data : List Nat) : Option Delivery :=
  if topic ∈ parsers then some ⟨topic, ts_ns, data⟩ else none

/-- The block-parsing while loop of parseDecompressedPayload
(websocket_client.cpp, lines 534-565): returns the deliveries made so far,
the parsed-block count, and whether the loop ran to the end of the payload
without a malformed block.  Each iteration consumes at least two bytes, so
the fuel bs.length + 1 never runs out; the fuel-exhausted branch is
unreachable. -/
def payloadLoop (parsers : List (List Nat)) :
    Nat → List Nat → List Delivery → Nat → List Delivery × Nat × Bool
  | _, [], acc, parsed => (acc, parsed, true)
  | 0, _ :: _, acc, parsed => (acc, parsed, false)
  | fuel + 1, bs, acc, parsed =>
      match readLE 2 bs with
      | none => (acc, parsed, false)
      | some (name_len, r1) =>
          if name_len ≤ r1.length then
            let topic := r1.take name_len
            let r2 := r1.drop name_len
            match readLE 8 r2 with
            | none => (acc, parsed, false)
            | some (ts_ns, r3) =>
                match readLE 4 r3 with
                | none => (acc, parsed, false)
                | some (data_len, r4) =>
                    if data_len ≤ r4.length then
                      let data := r4.take data_len
                      let r5 := r4.drop data_len
                      let acc1 :=
                        match onRos2CdrMessage parsers topic ts_ns data with
                        | some d => acc ++ [d]
                        | none => acc
                      payloadLoop parsers fuel r5 acc1 (parsed + 1)
                    else (acc, parsed, false)
          else (acc, parsed, false)

/-- Outcome of parseDecompressedPayload: the parser invocations that
happened, the parsed-block count, the boolean return value, and whether the
count-mismatch warning was logged. -/
structure PayloadOutcome where
  deliveries : List Delivery
  parsed : Nat
  ok : Bool
  count_warning : Bool
deriving Repr, DecidableEq

/-- parseDecompressedPayload (websocket_client.cpp, lines 521-576): parse
blocks to the end, delivering each to its topic parser as it is parsed; a
malformed block aborts with false; a final count different from the header
message_count logs a warning and returns false.  Deliveries made before
either failure are not undone. -/
def parseDecompressedPayload (parsers : List (List Nat)) (decompressed : List Nat)
    (expected_count : Nat) : PayloadOutcome :=
  let (ds, parsed, loop_ok) := payloadLoop parsers (decompressed.length + 1) decompressed [] 0
  if loop_ok = false then ⟨ds, parsed, false, false⟩
  else if parsed ≠ expected_count then ⟨ds, parsed, false, true⟩
  else ⟨ds, parsed, true, false⟩

/-- Result of ZSTD_decompress, an external library call: an error, or the
actual decompressed bytes (at most the destination capacity). -/
inductive ZstdOutcome
  | err
  | ok (bytes : List Nat)

/-- What a binary WebSocket frame did: whether parseDecompressedPayload was
reached, and with which outcome. -/
structure FrameResult where
  reached_parse : Bool
  deliveries : List Delivery
  parsed : Nat
  payload_ok : Bool
  count_warning : Bool
deriving Repr, DecidableEq

/-- A frame rejected before payload parsing. -/
def rejectedFrame : FrameResult := ⟨false, [], 0, false, false⟩

/-- onBinaryMessageReceived (websocket_client.cpp, lines 578-647): validate
the 16-byte header (magic 0x42524A50, zero flags), decompress the rest with
ZSTD into a buffer of uncompressed_size bytes, resize to the actual
decompressed byte count, and parse the payload.  zstd is the external
decompressor, given the compressed bytes and the destination capacity. -/
def onBinaryMessageReceived (running : Bool) (parsers : List (List Nat))
    (message : List Nat) (zstd : List Nat → Nat → ZstdOutcome) : FrameResult :=
  if running = false then rejectedFrame
  else if message.length < 16 then rejectedFrame
  else
    match readLE 4 message with
    | none => rejectedFrame
    | some (magic, p1) =>
        match readLE 4 p1 with
        | none => rejectedFrame
        | some (message_count, p2) =>
            match readLE 4 p2 with
            | none => rejectedFrame
            | some (uncompressed_size, p3) =>
                match readLE 4 p3 with
                | none => rejectedFrame
                | some (flags, _) =>
                    if magic ≠ 0x42524A50 then rejectedFrame
                    else if flags ≠ 0 then rejectedFrame
                    else
                      let compressed := message.drop 16
                      if compressed.length = 0 then rejectedFrame
                      else
                        match zstd compressed uncompressed_size with
                        | .err => rejectedFrame
                        | .ok decompressed =>
                            let o := parseDecompressedPayload parsers decompressed
                              message_count
                            ⟨true, o.deliveries, o.parsed, o.ok, o.count_warning⟩

/-!  WebSocket client state machine (websocket_client.cpp).  The event-loop
callbacks become a step function on the client state; the GUI dialog, the
message boxes and the parser factory are external collaborators (spec
sections 1 and 6) and only their state-relevant effects are kept.  QUuid
generation is modelled by a counter carried in the state; Qt timers fire
only while started, so each timer event is guarded by its flag. -/

/-- WsState::Mode. -/
inductive Mode
  | GetTopics
  | Subscribe
  | Data
  | Close
deriving Repr, DecidableEq

/-- TopicInfo: name and type from the topic list, schema fields filled by a
successful subscribe response. -/
structure TopicInfo where
  name : String
  type : String := ""
  schema_name : String := ""
  schema_encoding : String := ""
  schema_definition : String := ""
deriving Repr, DecidableEq

/-- One schema entry of a subscribe response: optional name (defaulting to
the topic type), encoding and definition. -/
structure SchemaEntry where
  name : Option String := none
  encoding : String := ""
  definition : String := ""
deriving Repr, DecidableEq

/-- A parsed JSON text message, with the fields the client reads.  A missing
string field reads as the empty string in Qt, so status and id are plain
strings; has_topics stands for contains("topics") with an array value and
schemas for contains("schemas") with an object value. -/
structure JsonMsg where
  has_protocol_version : Bool := true
  protocol_version : Int := 1
  status : String := ""
  id : String := ""
  has_topics : Bool := false
  schemas : Option (List (String × SchemaEntry)) := none
deriving DecidableEq

/-- The client state: the WsState fields, the pending-request tracking, the
flags of the constructor, the topics cache, the two timers and the
connection state of the socket, plus the dialog-open flag and the uuid
counter. -/
structure ClientState where
  running : Bool := false
  paused : Bool := false
  closing : Bool := false
  socket_connected : Bool := false
  dialog_open : Bool := false
  mode : Mode := .Close
  req_in_flight : Bool := false
  pending_request_id : String := ""
  pending_mode : Mode := .Close
  topics : List TopicInfo := []
  config_topics : List String := []
  topics_timer : Bool := false
  heartbeat_timer : Bool := false
  uuid_counter : Nat := 0
deriving DecidableEq

/-- An outgoing JSON command: the command field and the generated id
(protocol_version is always 1). -/
structure Cmd where
  command : String
  id : String
deriving Repr, DecidableEq

/-- The state right after the constructor (websocket_client.cpp, 16-52). -/
def initState : ClientState := {}

/-- The uuid generated for the n-th request. -/
def uuidString (n : Nat) : String := String.mk ('u' :: natToStr n)

/-- sendCommand (websocket_client.cpp, lines 652-682): nothing is sent on a
disconnected socket and the empty id is returned; otherwise a fresh uuid is
attached and the command sent.  Returns the new state, the returned id and
the sent commands. -/
def sendCommand (st : ClientState) (command : String) :
    ClientState × String × List Cmd :=
  if st.socket_connected = false then (st, "", [])
  else
    let id := uuidString st.uuid_counter
    ({ st with uuid_counter := st.uuid_counter + 1 }, id, [⟨command, id⟩])

/-- resetState (websocket_client.cpp, lines 293-314): stop both timers,
close the state machine, drop the pending request and clear the topics. -/
def resetStateFn (st : ClientState) : ClientState :=
  { st with
    topics_timer := false
    heartbeat_timer := false
    mode := .Close
    req_in_flight := false
    pending_request_id := ""
    pending_mode := .Close
    topics := [] }

/-- onConnected (websocket_client.cpp, lines 316-334). -/
def onConnected (st : ClientState) : ClientState × List Cmd :=
  let st1 := { st with
    running := true
    mode := Mode.GetTopics
    req_in_flight := true }
  let r := sendCommand st1 "get_topics"
  ({ r.1 with
      pending_mode := Mode.GetTopics
      pending_request_id := r.2.1
      topics_timer := true },
    r.2.2)

/-- onDisconnected (websocket_client.cpp, lines 336-362). -/
def onDisconnected (st : ClientState) : ClientState :=
  let st1 := { st with socket_connected := false }
  if st1.running = false then st1
  else
    let st2 := if st1.closing then { st1 with closing := false } else st1
    { resetStateFn st2 with running := false }

/-- Schema filling of the Subscribe branch (websocket_client.cpp, 464-478):
keep only server-confirmed topics and fill their schema fields. -/
def fillSchemas (topics : List TopicInfo) (schemas : List (String × SchemaEntry)) :
    List TopicInfo :=
  (topics.filter (fun t => (schemas.lookup t.name).isSome)).map
    (fun t =>
      let s := (schemas.lookup t.name).getD {}
      { t with
        schema_name := s.name.getD t.type
        schema_encoding := s.encoding
        schema_definition := s.definition })

/-- onTextMessageReceived (websocket_client.cpp, lines 371-502).  The
m argument is none when the text does not parse as a JSON object. -/
def onTextMessageReceived (st : ClientState) (m : Option JsonMsg) : ClientState :=
  if st.running = false then st
  else
    match m with
    | none => st
    | some obj =>
        if obj.has_protocol_version = false ∨ obj.protocol_version ≠ 1 then st
        else if st.req_in_flight ∧
            (st.pending_request_id = "" ∨ obj.id ≠ st.pending_request_id) then st
        else if obj.status = "error" then
          { st with
            req_in_flight := false
            pending_request_id := ""
            pending_mode := .Close }
        else if obj.status ≠ "success" then st
        else
          let handledMode := st.pending_mode
          let st1 := { st with
            req_in_flight := false
            pending_request_id := ""
            pending_mode := .Close }
          match handledMode with
          | .GetTopics =>
              if st1.dialog_open = false ∨ obj.has_topics = false then st1
              else { st1 with config_topics := [] }
          | .Subscribe =>
              match obj.schemas with
              | none => { st1 with topics := [] }
              | some schemas =>
                  { st1 with
                    topics := fillSchemas st1.topics schemas
                    mode := .Data
                    topics_timer := false
                    heartbeat_timer := true }
          | .Data => st1
          | .Close => st1

/-- requestTopics (websocket_client.cpp, lines 684-705), fired by the topic
refresh timer. -/
def requestTopics (st : ClientState) : ClientState × List Cmd :=
  if st.socket_connected = false then (st, [])
  else if st.running = false ∨ st.mode ≠ .GetTopics ∨ st.req_in_flight then (st, [])
  else
    let st1 := { st with req_in_flight := true }
    let r := sendCommand st1 "get_topics"
    ({ r.1 with pending_mode := Mode.GetTopics, pending_request_id := r.2.1 }, r.2.2)

/-- sendHeartBeat (websocket_client.cpp, lines 707-719), fired by the
heartbeat timer. -/
def sendHeartBeat (st : ClientState) : ClientState × List Cmd :=
  if st.socket_connected = false ∨ st.running = false ∨ st.mode ≠ .Data then (st, [])
  else
    let r := sendCommand st "heartbeat"
    (r.1, r.2.2)

/-- pause (websocket_client.cpp, lines 265-277): refused while not running
or while a request is in flight; otherwise a pause command is sent through
sendCommand.  Returns success as the non-emptiness of the returned id. -/
def pauseFn (st : ClientState) : ClientState × Bool × List Cmd :=
  if st.running = false ∨ st.req_in_flight then (st, false, [])
  else
    let r := sendCommand st "pause"
    (r.1, r.2.1 ≠ "", r.2.2)

/-- resume (websocket_client.cpp, lines 279-291). -/
def resumeFn (st : ClientState) : ClientState × Bool × List Cmd :=
  if st.running = false ∨ st.req_in_flight then (st, false, [])
  else
    let r := sendCommand st "resume"
    (r.1, r.2.1 ≠ "", r.2.2)

/-- The settings-action handler installed by setupSettings
(websocket_client.cpp, lines 63-94): toggles pause/resume when running and
no request is in flight. -/
def actionTriggered (st : ClientState) : ClientState × List Cmd :=
  if st.running = false then (st, [])
  else if st.req_in_flight then (st, [])
  else if st.paused then
    let r := resumeFn st
    (if r.2.1 then { r.1 with paused := false } else r.1, r.2.2)
  else
    let r := pauseFn st
    (if r.2.1 then { r.1 with paused := true } else r.1, r.2.2)

/-- Phase 2 of the dialog accept handler (websocket_client.cpp, lines
180-209): subscribe to the selected topics.  Phase 1 (connecting) is the
connect event. -/
def subscribeClicked (st : ClientState) (selected : List TopicInfo)
    (names : List String) : ClientState × List Cmd :=
  if st.running = false then (st, [])
  else if st.mode ≠ .GetTopics ∨ st.req_in_flight ∨ selected = [] then (st, [])
  else
    let st1 := { st with
      topics := selected
      config_topics := names
      mode := Mode.Subscribe
      req_in_flight := true }
    let r := sendCommand st1 "subscribe"
    ({ r.1 with
        pending_mode := Mode.Subscribe
        pending_request_id := r.2.1
        dialog_open := false },
      r.2.2)

/-- shutdown (websocket_client.cpp, lines 229-263). -/
def shutdownFn (st : ClientState) : ClientState :=
  if st.running = false then st
  else
    let st1 := resetStateFn { st with running := false, paused := false }
    { st1 with dialog_open := false, closing := true, socket_connected := false }

/-- The externally triggered events of the client event loop. -/
inductive Event
  | connectEv
  | textMsg (m : Option JsonMsg)
  | disconnectEv
  | topicsTimerFire
  | heartbeatTimerFire
  | actionTriggeredEv
  | subscribeClickedEv (selected : List TopicInfo) (names : List String)
  | shutdownEv

/-- One step of the client event loop: the next state and the commands sent. -/
def step (st : ClientState) (e : Event) : ClientState × List Cmd :=
  match e with
  | .connectEv => onConnected { st with socket_connected := true, dialog_open := true }
  | .textMsg m => (onTextMessageReceived st m, [])
  | .disconnectEv => (onDisconnected st, [])
  | .topicsTimerFire => if st.topics_timer then requestTopics st else (st, [])
  | .heartbeatTimerFire => if st.heartbeat_timer then sendHeartBeat st else (st, [])
  | .actionTriggeredEv => actionTriggered st
  | .subscribeClickedEv selected names => subscribeClicked st selected names
  | .shutdownEv => (shutdownFn st, [])

/-- The reachable client states: the constructor state and everything the
event loop can produce from it. -/
inductive Reachable : ClientState → Prop
  | init : Reachable initState
  | next (s : ClientState) (e : Event) : Reachable s → Reachable (step s e).1

/-!  Concrete inputs used by counterexamples and witnesses. -/

/-- A timestamp oracle that parses nothing and detects nothing; the claims
about warning bookkeeping hold for every oracle, and witnesses evaluate at
this one. -/
def trivialOracle : TimeOracle where
  DetectColumnType := fun _ => {}
  ParseWithType := fun _ _ => none
  ParseCombinedDateTime := fun _ _ _ _ => none
  FormatParseTimestamp := fun _ _ => none

/-- A decompressed payload holding one well-formed block: topic "/a"
(bytes 47, 97), log time 0, three data bytes. -/
def demoPayload : List Nat :=
  [2, 0] ++ [47, 97] ++ [0, 0, 0, 0, 0, 0, 0, 0] ++ [3, 0, 0, 0] ++ [1, 2, 3]

/-- A binary frame: magic "PJRB", message_count 1, uncompressed_size 100,
flags 0, one compressed byte. -/
def demoFrame : List Nat :=
  [0x50, 0x4A, 0x52, 0x42] ++ [1, 0, 0, 0] ++ [100, 0, 0, 0] ++ [0, 0, 0, 0] ++ [0]

/-- The client state after connecting and receiving the get_topics response:
mode GetTopics with no request in flight. -/
def wsGetTopicsIdleState : ClientState :=
  (step (step initState .connectEv).1
    (.textMsg (some { status := "success", id := "u0", has_topics := true }))).1

/-!  Theorems. -/

/-- Claim C10: pushing a pair whose string has a null data pointer or zero
size leaves the StringSeries completely unchanged: no point is appended and
the string dictionary is not modified. -/
theorem pushBackPair_empty_noop (st : StringSeriesState) (t : ℚ)
    (s : Option String) (h : s = none ∨ s = some "") :
    pushBackPair st (t, s) = st := by
  rcases h with h | h <;> subst h <;> simp [pushBackPair]

/-- Witness for C10 at a nonempty series and the empty string. -/
theorem pushBackPair_empty_noop_witness :
    pushBackPair ⟨[(0, 3)], ["a"], [("a", 0)]⟩ ((1 : ℚ), some "") =
      ⟨[(0, 3)], ["a"], [("a", 0)]⟩ :=
  pushBackPair_empty_noop ⟨[(0, 3)], ["a"], [("a", 0)]⟩ 1 (some "") (Or.inr rfl)

/-- Claim C7: while a request is in flight, an incoming JSON text message
whose id differs from the pending request id is dropped with no observable
effect: the whole client state, in particular mode, req_in_flight, pending
request id, topic list and timers, is unchanged, and nothing is sent. -/
theorem textMsg_id_mismatch_no_effect (st : ClientState) (obj : JsonMsg)
    (hf : st.req_in_flight = true) (hid : obj.id ≠ st.pending_request_id) :
    step st (.textMsg (some obj)) = (st, []) := by
  simp only [step, Prod.mk.injEq, and_true]
  simp only [onTextMessageReceived]
  split
  · rfl
  · split
    · rfl
    · rw [if_pos ⟨hf, Or.inr hid⟩]

/-- Witness for C7: a mismatching response id right after connecting. -/
theorem textMsg_id_mismatch_no_effect_witness :
    step (step initState .connectEv).1
        (.textMsg (some { status := "success", id := "zzz", has_topics := true })) =
      ((step initState .connectEv).1, []) :=
  textMsg_id_mismatch_no_effect (step initState .connectEv).1
    { status := "success", id := "zzz", has_topics := true } (by decide) (by decide)

/-- Counterexample to claim C1: a payload that parses cleanly into one block
while the header announces two blocks does log the warning, but the topic
parser has already received the block: the frame IS partially committed. -/
theorem payload_count_mismatch_committed :
    (payloadLoop [[47, 97]] (demoPayload.length + 1) demoPayload [] 0).2 = (1, true) ∧
    (parseDecompressedPayload [[47, 97]] demoPayload 2).count_warning = true ∧
    (parseDecompressedPayload [[47, 97]] demoPayload 2).deliveries =
      [⟨[47, 97], 0, [1, 2, 3]⟩] := by decide

/-- Amended claim C1: when the decompressed payload parses to the end with a
block count different from the header message_count, the warning is logged
and the function reports failure, but the frame is not rolled back: every
block parsed has already been delivered to its topic parser, exactly the
deliveries of the payload, independent of message_count. -/
theorem payload_count_mismatch_warns (parsers : List (List Nat))
    (payload : List Nat) (expected : Nat)
    (hok : (payloadLoop parsers (payload.length + 1) payload [] 0).2.2 = true)
    (hne : (payloadLoop parsers (payload.length + 1) payload [] 0).2.1 ≠ expected) :
    (parseDecompressedPayload parsers payload expected).count_warning = true ∧
    (parseDecompressedPayload parsers payload expected).ok = false ∧
    (parseDecompressedPayload parsers payload expected).deliveries =
      (payloadLoop parsers (payload.length + 1) payload [] 0).1 := by
  unfold parseDecompressedPayload
  rcases hpl : payloadLoop parsers (payload.length + 1) payload [] 0 with ⟨ds, parsed, lok⟩
  rw [hpl] at hok hne
  simp only [] at hok hne
  simp [hok, hne]

/-- Witness for the amended C1 at the one-block payload with header count 2. -/
theorem payload_count_mismatch_warns_witness :
    (parseDecompressedPayload [[47, 97]] demoPayload 2).count_warning = true ∧
    (parseDecompressedPayload [[47, 97]] demoPayload 2).ok = false ∧
    (parseDecompressedPayload [[47, 97]] demoPayload 2).deliveries =
      (payloadLoop [[47, 97]] (demoPayload.length + 1) demoPayload [] 0).1 :=
  payload_count_mismatch_warns [[47, 97]] demoPayload 2 (by decide) (by decide)

/-- Counterexample to claim C2: a frame whose header announces 100
uncompressed bytes while ZSTD decompression succeeds with a 19-byte payload
is NOT rejected: the payload is parsed and the topic parser invoked. -/
theorem frame_size_mismatch_accepted :
    demoPayload.length = 19 ∧
    leValue ((demoFrame.drop 8).take 4) = 100 ∧
    onBinaryMessageReceived true [[47, 97]] demoFrame (fun _ _ => .ok demoPayload) =
      ⟨true, [⟨[47, 97], 0, [1, 2, 3]⟩], 1, true, false⟩ := by decide

/-- Unfolding of onBinaryMessageReceived on a frame with a valid header:
the result is determined by the external decompressor outcome. -/
theorem onBinaryMessageReceived_valid_header (running : Bool)
    (parsers : List (List Nat)) (message : List Nat)
    (zstd : List Nat → Nat → ZstdOutcome) (hrun : running = true)
    (hlen : 17 ≤ message.length)
    (hmagic : leValue (message.take 4) = 0x42524A50)
    (hflags : leValue ((message.drop 12).take 4) = 0) :
    onBinaryMessageReceived running parsers message zstd =
      match zstd (message.drop 16) (leValue ((message.drop 8).take 4)) with
      | .err => rejectedFrame
      | .ok bytes =>
          let o := parseDecompressedPayload parsers bytes
            (leValue ((message.drop 4).take 4))
          ⟨true, o.deliveries, o.parsed, o.ok, o.count_warning⟩ := by
  subst hrun
  simp only [onBinaryMessageReceived, readLE]
  have hA : ¬ message.length < 16 := by omega
  have hB : 4 ≤ message.length := by omega
  have hC : 4 ≤ message.length - 4 := by omega
  have hD : 4 ≤ message.length - 4 - 4 := by omega
  have hE : 4 ≤ message.length - 4 - 4 - 4 := by omega
  have hF : ¬ (message.length - 16 = 0) := by omega
  simp [hA, hB, hC, hD, hE, hF, List.drop_drop, hmagic, hflags]
  have hG : 4 ≤ message.length - 8 := by omega
  have hH : 4 ≤ message.length - 12 := by omega
  simp [hG, hH, hflags]

/-- Amended claim C2: a valid-header frame is rejected exactly when
ZSTD decompression itself reports an error; when decompression succeeds the
actual decompressed bytes are parsed and fanned out even if their number
differs from the header uncompressed_size field. -/
theorem frame_parses_actual_bytes (running : Bool) (parsers : List (List Nat))
    (message : List Nat) (zstd : List Nat → Nat → ZstdOutcome)
    (hrun : running = true) (hlen : 17 ≤ message.length)
    (hmagic : leValue (message.take 4) = 0x42524A50)
    (hflags : leValue ((message.drop 12).take 4) = 0) :
    (zstd (message.drop 16) (leValue ((message.drop 8).take 4)) = .err →
      onBinaryMessageReceived running parsers message zstd = rejectedFrame) ∧
    (∀ bytes, zstd (message.drop 16) (leValue ((message.drop 8).take 4)) = .ok bytes →
      onBinaryMessageReceived running parsers message zstd =
        ⟨true,
          (parseDecompressedPayload parsers bytes (leValue ((message.drop 4).take 4))).deliveries,
          (parseDecompressedPayload parsers bytes (leValue ((message.drop 4).take 4))).parsed,
          (parseDecompressedPayload parsers bytes (leValue ((message.drop 4).take 4))).ok,
          (parseDecompressedPayload parsers bytes (leValue ((message.drop 4).take 4))).count_warning⟩) := by
  have hmain := onBinaryMessageReceived_valid_header running parsers message zstd
    hrun hlen hmagic hflags
  constructor
  · intro hz
    rw [hmain, hz]
  · intro bytes hz
    rw [hmain, hz]

/-- Witness for the amended C2 at the demo frame: the error branch with an
always-failing decompressor and the success branch with the 19-byte payload. -/
theorem frame_parses_actual_bytes_witness :
    onBinaryMessageReceived true [[47, 97]] demoFrame (fun _ _ => .err) =
      rejectedFrame ∧
    onBinaryMessageReceived true [[47, 97]] demoFrame (fun _ _ => .ok demoPayload) =
      ⟨true,
        (parseDecompressedPayload [[47, 97]] demoPayload
          (leValue ((demoFrame.drop 4).take 4))).deliveries,
        (parseDecompressedPayload [[47, 97]] demoPayload
          (leValue ((demoFrame.drop 4).take 4))).parsed,
        (parseDecompressedPayload [[47, 97]] demoPayload
          (leValue ((demoFrame.drop 4).take 4))).ok,
        (parseDecompressedPayload [[47, 97]] demoPayload
          (leValue ((demoFrame.drop 4).take 4))).count_warning⟩ :=
  ⟨(frame_parses_actual_bytes true [[47, 97]] demoFrame (fun _ _ => .err)
      rfl (by decide) (by decide) (by decide)).1 rfl,
    (frame_parses_actual_bytes true [[47, 97]] demoFrame (fun _ _ => .ok demoPayload)
      rfl (by decide) (by decide) (by decide)).2 demoPayload rfl⟩

/-- Counterexample to claim C5 and to the header-file contract that
ParseHeaderLine returns unique names: on the header a,a,a_00 the dedup loop
suffixes the first pair into a_00 and a_01, and the result collides with the
pre-existing third column a_00. -/
theorem parseHeaderLine_duplicate_names :
    ParseHeaderLine "a,a,a_00".data ',' =
      ["a_00".data, "a_01".data, "a_00".data] ∧
    ¬ (ParseHeaderLine "a,a,a_00".data ',').Nodup := by
  constructor
  · decide
  · decide

/-- Counterexample to claim C3: for the header line consisting of two commas
the raw split fields are three empty strings, so the warning fires, while
the duplicate-suffixing step changes nothing: the normalized names
_Column_0, _Column_1, _Column_2 are already unique. -/
theorem duplicate_warning_without_rename :
    (ParseCsvData [",,".data] {} trivialOracle none).warnings.any
      (fun w => w.type == .DUPLICATE_COLUMN_NAMES) = true ∧
    ParseHeaderLine ",,".data ',' = headerNamesRaw ",,".data ',' := by
  constructor
  · decide
  · decide

/-- Counterexample to claim C6: from the reachable idle GetTopics state
(connected, get_topics response handled), triggering the settings action
sends a pause command although the mode is not Data. -/
theorem pause_sent_outside_data_mode :
    Reachable wsGetTopicsIdleState ∧
    wsGetTopicsIdleState.mode = .GetTopics ∧
    wsGetTopicsIdleState.req_in_flight = false ∧
    ((step wsGetTopicsIdleState .actionTriggeredEv).2.map Cmd.command) = ["pause"] :=
  ⟨Reachable.next _ _ (Reachable.next _ _ Reachable.init), by decide, by decide, by decide⟩

/-- Every command emitted by sendCommand carries the requested command name. -/
theorem mem_sendCommand (st : ClientState) (name : String) (c : Cmd)
    (hc : c ∈ (sendCommand st name).2.2) : c.command = name := by
  unfold sendCommand at hc
  split at hc
  · simp at hc
  · simp at hc
    rw [hc]

/-- Amended claim C6: in every reachable state, a pause or resume command is
sent only while the client is running and no request is in flight; the mode
is not required to be Data. -/
theorem pause_resume_only_while_idle (st : ClientState) (e : Event) (c : Cmd)
    (_hst : Reachable st) (hc : c ∈ (step st e).2)
    (hp : c.command = "pause" ∨ c.command = "resume") :
    st.running = true ∧ st.req_in_flight = false := by
  have absurdName : ∀ name : String, name ≠ "pause" → name ≠ "resume" →
      c.command = name → False := by
    intro name h1 h2 hcmd
    rw [hcmd] at hp
    rcases hp with h | h
    · exact h1 h
    · exact h2 h
  cases e with
  | connectEv =>
      exact absurd (mem_sendCommand _ _ c hc) (by intro h; exact absurdName _ (by decide) (by decide) h)
  | textMsg m => simp [step] at hc
  | disconnectEv => simp [step] at hc
  | shutdownEv => simp [step] at hc
  | topicsTimerFire =>
      exfalso
      simp only [step] at hc
      split at hc
      · unfold requestTopics at hc
        split at hc
        · simp at hc
        · split at hc
          · simp at hc
          · exact absurdName _ (by decide) (by decide) (mem_sendCommand _ _ c hc)
      · simp at hc
  | heartbeatTimerFire =>
      exfalso
      simp only [step] at hc
      split at hc
      · unfold sendHeartBeat at hc
        split at hc
        · simp at hc
        · exact absurdName _ (by decide) (by decide) (mem_sendCommand _ _ c hc)
      · simp at hc
  | subscribeClickedEv selected names =>
      exfalso
      simp only [step] at hc
      unfold subscribeClicked at hc
      split at hc
      · simp at hc
      · split at hc
        · simp at hc
        · exact absurdName _ (by decide) (by decide) (mem_sendCommand _ _ c hc)
  | actionTriggeredEv =>
      simp only [step] at hc
      unfold actionTriggered at hc
      split at hc
      · simp at hc
      · split at hc
        · simp at hc
        · rename_i hrun hflight
          constructor
          · cases h : st.running with
            | true => rfl
            | false => exact absurd h hrun
          · cases h : st.req_in_flight with
            | true => exact absurd h hflight
            | false => rfl

/-- Witness for the amended C6 at the reachable idle GetTopics state. -/
theorem pause_resume_only_while_idle_witness :
    wsGetTopicsIdleState.running = true ∧ wsGetTopicsIdleState.req_in_flight = false :=
  pause_resume_only_while_idle wsGetTopicsIdleState .actionTriggeredEv
    ⟨"pause", "u1"⟩ (Reachable.next _ _ (Reachable.next _ _ Reachable.init))
    (by decide) (Or.inl rfl)

/-- With the last-opening-quote policy, one spec splitter step projects to
one code splitter step: the has_open flag is dead state. -/
theorem eraseSS_specSplitStep (line : Str) (sep c : Char) (pos : Nat)
    (is_last : Bool) (sst : SpecSplitState) :
    eraseSS (specSplitStep false line sep c pos is_last sst) =
      splitStep line sep c pos is_last (eraseSS sst) := by
  by_cases hq : c = '"' <;> by_cases hiq : sst.inside_quotes = true <;>
    simp only [specSplitStep, splitStep, eraseSS, hq, hiq, Bool.false_and,
      if_true, if_false, Bool.not_true, Bool.not_false, ite_true, ite_false,
      Bool.true_and, Bool.false_or, Bool.true_or, Bool.and_true, Bool.or_false] <;>
    split_ifs <;> first | rfl | simp_all

/-- The spec splitting loop with the last-opening-quote policy projects to
the code splitting loop. -/
theorem specSplitLoop_false_eq (line : Str) (sep : Char) :
    ∀ (rest : List Char) (pos : Nat) (sst : SpecSplitState),
      specSplitLoop false line sep rest pos sst =
        splitLoop line sep rest pos (eraseSS sst) := by
  intro rest
  induction rest with
  | nil => intro pos sst; rfl
  | cons c t ih =>
      intro pos sst
      rw [specSplitLoop, splitLoop, ← eraseSS_specSplitStep]
      exact ih (pos + 1) _

/-- Amended claim C4: for every line and separator, SplitLine emits, for any
field in which a closing quote was seen, the trimmed substring between the
LAST opening quote and the last closing quote of the field, and for other
fields the trimmed full slice from the previous separator (or line start)
to the current separator (or line end). -/
theorem splitLine_eq_spec_last (line : Str) (sep : Char) :
    SplitLine line sep = splitLineSpec false line sep := by
  unfold SplitLine splitLineSpec
  rw [specSplitLoop_false_eq]
  rfl

/-- Counterexample to claim C4: in the field "a" "b" the code emits the
substring between the LAST opening quote and the last closing quote, b, not
the substring between the first opening quote and the last closing quote. -/
theorem splitLine_not_first_quote :
    SplitLine "\"a\" \"b\"".data ',' = ["b".data] ∧
    splitLineSpec true "\"a\" \"b\"".data ',' ≠ SplitLine "\"a\" \"b\"".data ',' := by
  constructor
  · decide
  · decide

/-- One selection-loop iteration of DetectDelimiter is the lexicographic
maximum step applied only to qualifying candidates. -/
theorem pickBestStep_eq (best : Option DelimCandidate) (c : DelimCandidate) :
    pickBestStep best c = if qualifiesSpec c then maxStep best c else best := by
  unfold pickBestStep maxStep qualifiesSpec
  cases best with
  | none => split_ifs <;> simp_all
  | some b =>
      split_ifs <;> simp_all <;> (try (split_ifs <;> simp_all)) <;> (try omega)

/-- The selection loop of DetectDelimiter computes the lexicographic maximum
of the qualifying candidates, from any starting best. -/
theorem foldl_pickBestStep_eq (cs : List DelimCandidate) :
    ∀ best : Option DelimCandidate,
      cs.foldl pickBestStep best = (cs.filter qualifiesSpec).foldl maxStep best := by
  induction cs with
  | nil => intro best; rfl
  | cons c t ih =>
      intro best
      rw [List.foldl_cons, pickBestStep_eq, List.filter_cons]
      by_cases hq : qualifiesSpec c
      · rw [if_pos hq, if_pos hq, List.foldl_cons]
        exact ih (maxStep best c)
      · rw [if_neg hq, if_neg hq]
        exact ih best

/-- Claim C8: DetectDelimiter counts comma, semicolon and tab occurrences
outside quotes and space runs outside quotes, and returns the candidate
meeting its threshold (1, or 2 for space) with the highest count, ties
broken by the priority tab, semicolon, comma, space, defaulting to comma
when no candidate qualifies — the spec-side selection DetectDelimiterSpec. -/
theorem detectDelimiter_eq_spec (line : Str) :
    DetectDelimiter line = DetectDelimiterSpec line := by
  unfold DetectDelimiter DetectDelimiterSpec pickBest maxByCountPriority
  rw [foldl_pickBestStep_eq]

/-- The row loop never emits a DUPLICATE_COLUMN_NAMES warning: the presence
of one in the final result is inherited from the header stage. -/
theorem rowLoop_dup_warning_iff (config : CsvParseConfig) (oracle : TimeOracle)
    (progress : Option (Int → Int → Bool)) (nc : Nat) (tl : Int) :
    ∀ (ls : List Str) (st : RowLoopState),
      ((∃ w ∈ (rowLoop config oracle progress nc tl ls st).warnings,
          w.type = .DUPLICATE_COLUMN_NAMES) ↔
        (∃ w ∈ st.result.warnings, w.type = .DUPLICATE_COLUMN_NAMES)) := by
  intro ls
  induction ls with
  | nil => intro st; rfl
  | cons l rest ih =>
      intro st
      simp only [rowLoop]
      split
      · rw [ih]
      · split
        · rw [ih]
          simp [List.mem_append, or_and_right, exists_or]
        · split
          · rw [ih]
            simp [List.mem_append, or_and_right, exists_or]
          · split
            · split_ifs <;> (try rw [ih]) <;> simp [List.mem_append, or_and_right, exists_or]
            · rw [ih]
              split <;> simp [List.mem_append, or_and_right, exists_or]

/-- Amended claim C3: for every header line, ParseCsvData emits a
DUPLICATE_COLUMN_NAMES warning iff the raw split fields of the header
contain a duplicate — a condition evaluated before empty fields are replaced
and before suffixes are added, which can differ from whether the
duplicate-suffixing step changed any name. -/
theorem duplicate_warning_iff_raw_dup (lines : List Str)
    (config : CsvParseConfig) (oracle : TimeOracle)
    (progress : Option (Int → Int → Bool)) (header : Str) (rest : List Str)
    (hdr : lines.drop config.skip_rows = header :: rest) :
    ((∃ w ∈ (ParseCsvData lines config oracle progress).warnings,
        w.type = .DUPLICATE_COLUMN_NAMES) ↔
      ¬ (SplitLine (stripCR header) config.delimiter).Nodup) := by
  have hlen : ¬ (lines.length < config.skip_rows + 1) := by
    intro hlt
    have hcg := congrArg List.length hdr
    simp only [List.length_drop, List.length_cons] at hcg
    omega
  simp only [ParseCsvData]
  rw [if_neg hlen]
  split
  · next heq =>
      rw [hdr] at heq
      exact absurd heq (by simp)
  · next h t heq =>
      rw [hdr] at heq
      injection heq with h1 h2
      subst h1
      subst h2
      rw [rowLoop_dup_warning_iff]
      split_ifs <;> simp_all

/-- Witness for the amended C3: the header a,a produces the warning, and its
raw fields indeed contain a duplicate. -/
theorem duplicate_warning_iff_raw_dup_witness :
    ((∃ w ∈ (ParseCsvData ["a,a".data] {} trivialOracle none).warnings,
        w.type = .DUPLICATE_COLUMN_NAMES) ↔
      ¬ (SplitLine (stripCR "a,a".data) (CsvParseConfig.delimiter {})).Nodup) :=
  duplicate_warning_iff_raw_dup ["a,a".data] {} trivialOracle none
    "a,a".data [] rfl

/-- The row loop maintains the non-monotonic bookkeeping invariant: the
number of NON_MONOTONIC_TIME warnings in the result equals one when the
time_is_non_monotonic flag is set and zero otherwise. -/
theorem rowLoop_nonmono_count (config : CsvParseConfig) (oracle : TimeOracle)
    (progress : Option (Int → Int → Bool)) (nc : Nat) (tl : Int) :
    ∀ (ls : List Str) (st : RowLoopState),
      st.result.warnings.countP
          (fun w => decide (w.type = .NON_MONOTONIC_TIME)) =
        (if st.result.time_is_non_monotonic then 1 else 0) →
      (rowLoop config oracle progress nc tl ls st).warnings.countP
          (fun w => decide (w.type = .NON_MONOTONIC_TIME)) =
        (if (rowLoop config oracle progress nc tl ls st).time_is_non_monotonic
          then 1 else 0) := by
  intro ls
  induction ls with
  | nil => intro st hinv; exact hinv
  | cons l rest ih =>
      intro st hinv
      simp only [rowLoop]
      split
      · exact ih _ hinv
      · split
        · exact ih _ (by simp [List.countP_append, List.countP_cons, hinv])
        · split
          · exact ih _ (by simp [List.countP_append, List.countP_cons, hinv])
          · rename_i ts valid heq
            split
            · rename_i cb
              by_cases hcb : (st.linenumber + 1) % 100 = 0 ∧ cb (st.linenumber + 1) tl = false
              · simp only [hcb, if_true]
                cases valid <;> by_cases hib : isBackwards st.prev_time ts = true <;>
                  by_cases hfl : st.result.time_is_non_monotonic = true <;>
                  simp_all [List.countP_append, List.countP_cons]
              · simp only [hcb, if_false]
                cases valid <;> by_cases hib : isBackwards st.prev_time ts = true <;>
                  by_cases hfl : st.result.time_is_non_monotonic = true <;>
                  exact ih _ (by simp_all [List.countP_append, List.countP_cons])
            · cases valid <;> by_cases hib : isBackwards st.prev_time ts = true <;>
                by_cases hfl : st.result.time_is_non_monotonic = true <;>
                exact ih _ (by simp_all [List.countP_append, List.countP_cons])

/-- Claim C9: in every parse result the NON_MONOTONIC_TIME warning appears
at most once, and the non-monotonic flag is set iff the warning appears;
the warning is emitted exactly when a successfully parsed row timestamp is
below the previous one and the flag is not yet set (rowLoop). -/
theorem nonmono_warning_once (lines : List Str) (config : CsvParseConfig)
    (oracle : TimeOracle) (progress : Option (Int → Int → Bool)) :
    ((ParseCsvData lines config oracle progress).warnings.countP
        (fun w => decide (w.type = .NON_MONOTONIC_TIME)) ≤ 1) ∧
    ((ParseCsvData lines config oracle progress).time_is_non_monotonic = true ↔
      ∃ w ∈ (ParseCsvData lines config oracle progress).warnings,
        w.type = .NON_MONOTONIC_TIME) := by
  have hmain : (ParseCsvData lines config oracle progress).warnings.countP
      (fun w => decide (w.type = .NON_MONOTONIC_TIME)) =
      (if (ParseCsvData lines config oracle progress).time_is_non_monotonic
        then 1 else 0) := by
    simp only [ParseCsvData]
    split
    · rfl
    · split
      · rfl
      · apply rowLoop_nonmono_count
        split_ifs <;> simp_all
  constructor
  · rw [hmain]
    split <;> simp
  · constructor
    · intro hfl
      rw [hfl] at hmain
      simp only [if_true] at hmain
      have hpos : 0 < (ParseCsvData lines config oracle progress).warnings.countP
          (fun w => decide (w.type = .NON_MONOTONIC_TIME)) := by omega
      obtain ⟨w, hw, hp⟩ := List.countP_pos_iff.mp hpos
      exact ⟨w, hw, of_decide_eq_true hp⟩
    · intro hex
      obtain ⟨w, hw, hp⟩ := hex
      by_contra hfl
      have hflag : (ParseCsvData lines config oracle progress).time_is_non_monotonic
          = false := by
        cases h : (ParseCsvData lines config oracle progress).time_is_non_monotonic
        · rfl
        · exact absurd h hfl
      rw [hflag] at hmain
      simp only [Bool.false_eq_true, if_false] at hmain
      have hpos : 0 < (ParseCsvData lines config oracle progress).warnings.countP
          (fun w => decide (w.type = .NON_MONOTONIC_TIME)) :=
        List.countP_pos_iff.mpr ⟨w, hw, decide_eq_true hp⟩
      omega

end PlotJuggler
